/-
Verification of the evolvable-trading-framework configuration manager and
market-data fetcher against their natural-language specification.

The definitions below are a shallow embedding of `src/config.py` (the
`TradingMode` and `ExchangeType` enums, the `TradingConfig` pydantic schema,
`FirebaseConfig.__new__`, `ConfigManager._load_config` and
`ConfigManager.save_config`) and — where `src/data_fetcher.py` is truncated
before the fetcher's implementation — of the specified `DataFetcher.get`
caching / retry behaviour, modelled from the spec.

Machine integers are modelled as `Int`/`Nat` (Python integers are unbounded,
so no wraparound is needed).  Fallible Python code is modelled with `Except`
and `Option`.
-/
import Mathlib

set_option autoImplicit false

namespace TradingFramework

/-! ## Enumerations (src/config.py, `TradingMode`, `ExchangeType`) -/

/-- `class TradingMode(str, Enum)`: the three trading execution modes. -/
inductive TradingMode where
  | PAPER
  | LIVE
  | BACKTEST
  deriving DecidableEq, Repr

/-- `class ExchangeType(str, Enum)`: the four supported exchanges. -/
inductive ExchangeType where
  | BINANCE
  | COINBASE
  | KRAKEN
  | BYBIT
  deriving DecidableEq, Repr

/-- The string value of each `TradingMode` member (`"paper"`, `"live"`,
`"backtest"` in the source). -/
def TradingMode.value : TradingMode → String
  | .PAPER => "paper"
  | .LIVE => "live"
  | .BACKTEST => "backtest"

/-- The string value of each `ExchangeType` member. -/
def ExchangeType.value : ExchangeType → String
  | .BINANCE => "binance"
  | .COINBASE => "coinbase"
  | .KRAKEN => "kraken"
  | .BYBIT => "bybit"

/-- Pydantic's validation of a string against the `TradingMode` enum:
a string is accepted exactly when it equals one member's value. -/
def parseTradingMode (s : String) : Option TradingMode :=
  if s = "paper" then some .PAPER
  else if s = "live" then some .LIVE
  else if s = "backtest" then some .BACKTEST
  else none

/-- Pydantic's validation of a string against the `ExchangeType` enum. -/
def parseExchangeType (s : String) : Option ExchangeType :=
  if s = "binance" then some .BINANCE
  else if s = "coinbase" then some .COINBASE
  else if s = "kraken" then some .KRAKEN
  else if s = "bybit" then some .BYBIT
  else none

/-! ## The `TradingConfig` schema (src/config.py lines 102-113) -/

/-- `class TradingConfig(BaseModel)` with its field defaults:
`mode=PAPER`, `exchange=BINANCE`, `api_key=None`, `api_secret=None`,
`symbols=["BTC/USDT", "ETH/USDT"]`, `update_interval=60`.  The schema
places no constraint on `update_interval` beyond it being an `int`. -/
structure TradingConfig where
  mode : TradingMode := .PAPER
  exchange : ExchangeType := .BINANCE
  api_key : Option String := none
  api_secret : Option String := none
  symbols : List String := ["BTC/USDT", "ETH/USDT"]
  update_interval : Int := 60
  deriving DecidableEq, Repr

/-! ## `json.loads` on the SYMBOLS variable

The program stores symbol lists as JSON arrays of strings (the only shape
the configuration ever produces or consumes), so we embed `json.loads`
restricted to that fragment: optional JSON whitespace, `[`, double-quoted
string literals (with `\"`, `\\` and `\/` escapes) separated by commas, `]`.
Any other input is a decode error, as `json.loads` raises
`JSONDecodeError` on malformed input. -/

/-- The four JSON whitespace characters. -/
def isJsonWs (c : Char) : Bool :=
  c = ' ' || c = '\t' || c = '\n' || c = '\r'

/-- Drop leading JSON whitespace. -/
def skipWs : List Char → List Char
  | [] => []
  | c :: rest => if isJsonWs c then skipWs rest else c :: rest

/-- Parse the remainder of a JSON string literal (the opening quote already
consumed), accumulating characters until the closing quote. -/
def parseJStrAux : List Char → List Char → Option (String × List Char)
  | _, [] => none
  | acc, '"' :: rest => some (String.mk acc.reverse, rest)
  | acc, '\\' :: c :: rest =>
    if c = '"' || c = '\\' || c = '/' then parseJStrAux (c :: acc) rest
    else none
  | _, '\\' :: [] => none
  | acc, c :: rest => parseJStrAux (c :: acc) rest

/-- Parse the items of a non-empty JSON array of strings, positioned just
before a string literal; `fuel` bounds the recursion by the input length. -/
def parseItemsAux : Nat → List Char → List String → Option (List String)
  | 0, _, _ => none
  | fuel + 1, s, acc =>
    match skipWs s with
    | '"' :: rest =>
      match parseJStrAux [] rest with
      | none => none
      | some (str, rest2) =>
        match skipWs rest2 with
        | ',' :: rest3 => parseItemsAux fuel rest3 (str :: acc)
        | ']' :: rest3 =>
          if skipWs rest3 = [] then some (str :: acc).reverse else none
        | _ => none
    | _ => none

/-- `json.loads` on the array-of-strings fragment used for `SYMBOLS`:
returns the decoded list, or a decode error for malformed input. -/
def jsonLoadsStrList (s : String) : Except String (List String) :=
  match skipWs s.data with
  | '[' :: rest =>
    match skipWs rest with
    | ']' :: rest2 =>
      if skipWs rest2 = [] then .ok [] else .error "Extra data"
    | _ =>
      match parseItemsAux (s.data.length + 1) rest [] with
      | some items => .ok items
      | none => .error "Expecting value"
  | _ => .error "Expecting value"

/-! ## Python `int()` on the UPDATE_INTERVAL variable -/

/-- Decimal digits to a natural number. -/
def digitsToNat (ds : List Char) : Nat :=
  ds.foldl (fun n c => n * 10 + (c.toNat - '0'.toNat)) 0

/-- `int(s)` for a decimal string: surrounding whitespace is stripped, an
optional sign precedes a non-empty digit run; anything else raises
`ValueError`.  (Digit-group underscores, accepted by CPython, never occur
in this program's inputs and are not modelled.) -/
def pyInt (s : String) : Except String Int :=
  let core := ((s.data.dropWhile isJsonWs).reverse.dropWhile isJsonWs).reverse
  match core with
  | '-' :: ds =>
    if ds ≠ [] ∧ ds.all Char.isDigit then .ok (-(digitsToNat ds : Int))
    else .error "invalid literal for int"
  | '+' :: ds =>
    if ds ≠ [] ∧ ds.all Char.isDigit then .ok (digitsToNat ds : Int)
    else .error "invalid literal for int"
  | ds =>
    if ds ≠ [] ∧ ds.all Char.isDigit then .ok (digitsToNat ds : Int)
    else .error "invalid literal for int"

/-! ## Environment and the fallback construction
(src/config.py lines 139-148) -/

/-- The configuration-relevant environment variables; `none` means unset. -/
structure Env where
  trading_mode : Option String := none
  exchange : Option String := none
  api_key : Option String := none
  api_secret : Option String := none
  symbols : Option String := none
  update_interval : Option String := none
  deriving Repr

/-- The exceptions that can escape `ConfigManager._load_config`:
`json.loads` decode errors and `int()` value errors propagate uncaught from
the fallback's argument evaluation, and pydantic `ValidationError`s are
re-raised by the `except ValidationError` clause. -/
inductive ConfigError where
  | jsonDecodeError (msg : String)
  | valueError (msg : String)
  | validationError (field : String)
  deriving DecidableEq, Repr

/-- The environment-variable fallback of `_load_config`:
`TradingConfig(mode=os.getenv("TRADING_MODE", "paper"), ...)`.
`json.loads` and `int()` run during argument evaluation, before pydantic
validates `mode` and `exchange` against their enums (field order). -/
def envConstruct (e : Env) : Except ConfigError TradingConfig :=
  match jsonLoadsStrList (e.symbols.getD "[\"BTC/USDT\"]") with
  | .error m => .error (.jsonDecodeError m)
  | .ok syms =>
    match pyInt (e.update_interval.getD "60") with
    | .error m => .error (.valueError m)
    | .ok upd =>
      match parseTradingMode (e.trading_mode.getD "paper") with
      | none => .error (.validationError "mode")
      | some mode =>
        match parseExchangeType (e.exchange.getD "binance") with
        | none => .error (.validationError "exchange")
        | some exch =>
          .ok { mode := mode, exchange := exch, api_key := e.api_key,
                api_secret := e.api_secret, symbols := syms,
                update_interval := upd }

/-! ## Remote documents and `_load_config`
(src/config.py lines 124-151) -/

/-- A Firestore `doc.to_dict()` mapping, fields optional.  `mode` and
`exchange` arrive as raw strings and are validated against the enums by
pydantic; `symbols` and `update_interval` carry the schema's own types. -/
structure RawDoc where
  mode : Option String := none
  exchange : Option String := none
  api_key : Option String := none
  api_secret : Option String := none
  symbols : Option (List String) := none
  update_interval : Option Int := none
  deriving Repr

/-- `TradingConfig(**doc.to_dict())`: pydantic validates present fields in
declaration order and substitutes the schema defaults for absent ones. -/
def TradingConfig.ofDoc (d : RawDoc) : Except ConfigError TradingConfig :=
  match (match d.mode with
         | none => some TradingMode.PAPER
         | some s => parseTradingMode s) with
  | none => .error (.validationError "mode")
  | some mode =>
    match (match d.exchange with
           | none => some ExchangeType.BINANCE
           | some s => parseExchangeType s) with
    | none => .error (.validationError "exchange")
    | some exch =>
      .ok { mode := mode, exchange := exch, api_key := d.api_key,
            api_secret := d.api_secret,
            symbols := d.symbols.getD ["BTC/USDT", "ETH/USDT"],
            update_interval := d.update_interval.getD 60 }

/-- The observable states of the remote store during one `_load_config`
run: no database handle (`self.db` falsy), an exception raised while
reading, a read that finds no document (`doc.exists` false), or a read
returning a document mapping. -/
inductive Remote where
  | noDb
  | raises
  | missing
  | doc (d : RawDoc)

/-- The Firebase branch of `_load_config` (the `try` block): it yields a
config exactly when a document exists and validates; a missing handle, a
read exception, an absent document, or a `ValidationError` on the document
all fall through (the broad `except Exception` catches and logs). -/
def remoteBranch : Remote → Option TradingConfig
  | .noDb => none
  | .raises => none
  | .missing => none
  | .doc d => (TradingConfig.ofDoc d).toOption

/-- `ConfigManager._load_config`: return the Firebase-loaded config when the
remote branch produced one, otherwise construct from the environment,
propagating any fallback failure. -/
def loadConfig (r : Remote) (e : Env) : Except ConfigError TradingConfig :=
  match remoteBranch r with
  | some c => .ok c
  | none => envConstruct e

/-! ## `ConfigManager.save_config` (src/config.py lines 153-161) -/

/-- The possible outcomes of the remote write `doc_ref.set(config_data)`. -/
inductive WriteOutcome where
  | ok
  | raises
  deriving DecidableEq, Repr

/-- What a `save_config` call is observed to do. -/
structure SaveResult where
  /-- Did an exception propagate to the caller? -/
  raised : Bool
  /-- How many remote write attempts were made. -/
  attempts : Nat
  deriving DecidableEq, Repr

/-- The `try` body of `save_config`: when a database handle is present the
single `doc_ref.set` call is attempted (and may raise); without a handle
nothing is attempted. -/
def saveBody (dbPresent : Bool) (w : WriteOutcome) : Except String Unit × Nat :=
  if dbPresent then
    match w with
    | .ok => (.ok (), 1)
    | .raises => (.error "Failed to save configuration", 1)
  else (.ok (), 0)

/-- `ConfigManager.save_config`: the surrounding `except Exception` clause
logs any failure of the body and swallows it, so the call always returns
normally and never retries the write. -/
def save_config (dbPresent : Bool) (w : WriteOutcome) : SaveResult :=
  match saveBody dbPresent w with
  | (.ok _, n) => { raised := false, attempts := n }
  | (.error _, n) => { raised := false, attempts := n }

/-! ## `FirebaseConfig.__new__` (src/config.py lines 52-66) -/

/-- `FirebaseConfig.__new__`: given the class attribute `_instance` (an
object identity, or `none` before first construction) and a fresh identity
the allocator would hand out, return the object the constructor yields and
the updated `_instance`.  The source assigns `cls._instance` only when it
is `None` and always returns `cls._instance`. -/
def FirebaseConfig.new (inst : Option Nat) (fresh : Nat) : Nat × Option Nat :=
  match inst with
  | none => (fresh, some fresh)
  | some i => (i, some i)

/-! ## DataFetcher (modelled from the spec)

`src/data_fetcher.py` is truncated after its import block: the repository
lacks the `DataFetcher` implementation itself.  The definitions in this
section are therefore modelled from the spec's §4.2 contract and algorithm:
cache lookup keyed by `(symbol, kind)` with `now - entry.timestamp < ttl`
freshness, retry of transient network failures up to a fixed bound with
backoff, immediate failure on permanent exchange errors, and storing the
payload with the current timestamp on success.  The spec's retry-bound
example (three transient failures then a success makes exactly 4 attempts)
fixes the bound at 3 retries. -/

/-- The two market-data kinds the fetcher serves. -/
inductive DataKind where
  | ticker
  | candles
  deriving DecidableEq, Repr

/-- Modelled from the spec: the outcome of one external exchange call —
a normalized payload, a transient network failure, or a permanent
exchange rejection. -/
inductive FetchOutcome (α : Type) where
  | success (payload : α)
  | transient
  | permanent

/-- Modelled from the spec: the typed failures `get` surfaces, transient
(network, after retry exhaustion) versus permanent (exchange rejection). -/
inductive FetchError where
  | transientFetchError
  | permanentFetchError
  deriving DecidableEq, Repr

/-- Modelled from the spec: the fixed retry bound — three retries, hence
at most four external call attempts per fetch. -/
def maxRetries : Nat := 3

/-- Modelled from the spec: the retry loop over external call attempts.
`oracle i` is the outcome of the `i`-th external attempt (numbered from
`idx`); the loop returns the result together with the number of attempts
it made.  A success returns the payload; a permanent error fails without
retrying; a transient error retries while retries remain, then fails. -/
def fetchLoop {α : Type} (oracle : Nat → FetchOutcome α) :
    Nat → Nat → Except FetchError α × Nat
  | retries, idx =>
    match oracle idx with
    | .success p => (.ok p, 1)
    | .permanent => (.error .permanentFetchError, 1)
    | .transient =>
      match retries with
      | 0 => (.error .transientFetchError, 1)
      | r + 1 =>
        let (res, n) := fetchLoop oracle r (idx + 1)
        (res, n + 1)

/-- Modelled from the spec: one full external fetch, starting with a fresh
retry budget at attempt `0`. -/
def fetchMarket {α : Type} (oracle : Nat → FetchOutcome α) :
    Except FetchError α × Nat :=
  fetchLoop oracle maxRetries 0

/-- Modelled from the spec: a cache entry — normalized payload and the
timestamp (in seconds) of the fetch that stored it. -/
structure CacheEntry (α : Type) where
  payload : α
  timestamp : Nat
  deriving DecidableEq, Repr

/-- Modelled from the spec: the in-memory cache, a mapping keyed by
`(symbol, kind)`. -/
abbrev Cache (α : Type) : Type := List ((String × DataKind) × CacheEntry α)

/-- Look up the cache entry for a key. -/
def cacheFind {α : Type} (c : Cache α) (k : String × DataKind) :
    Option (CacheEntry α) :=
  match c.find? (fun p => p.1 = k) with
  | some p => some p.2
  | none => none

/-- Store (overwrite) the cache entry for a key. -/
def cacheStore {α : Type} (c : Cache α) (k : String × DataKind)
    (e : CacheEntry α) : Cache α :=
  (k, e) :: c.filter (fun p => ¬ p.1 = k)

/-- Modelled from the spec: `DataFetcher.get(symbol, kind, ttl)` at time
`now`, with the external exchange behaving as `oracle`.  Returns the
result, the updated cache, and the number of external call attempts made.
A cache entry younger than `ttl` is returned with no external call;
otherwise the retry loop runs and a success is stored with timestamp
`now`. -/
def DataFetcher.get {α : Type} (oracle : Nat → FetchOutcome α)
    (cache : Cache α) (symbol : String) (kind : DataKind) (ttl : Nat)
    (now : Nat) : Except FetchError α × Cache α × Nat :=
  match cacheFind cache (symbol, kind) with
  | some entry =>
    if now - entry.timestamp < ttl then (.ok entry.payload, cache, 0)
    else
      match fetchMarket oracle with
      | (.ok p, n) =>
        (.ok p, cacheStore cache (symbol, kind) ⟨p, now⟩, n)
      | (.error err, n) => (.error err, cache, n)
  | none =>
    match fetchMarket oracle with
    | (.ok p, n) =>
      (.ok p, cacheStore cache (symbol, kind) ⟨p, now⟩, n)
    | (.error err, n) => (.error err, cache, n)

/-! ## Concrete inputs used by the claim witnesses -/

/-- Environment with only `UPDATE_INTERVAL="0"` set. -/
def envZeroInterval : Env := { update_interval := some "0" }

/-- The config the fallback produces from `envZeroInterval`. -/
def cfgZeroInterval : TradingConfig :=
  { mode := .PAPER, exchange := .BINANCE, api_key := none, api_secret := none,
    symbols := ["BTC/USDT"], update_interval := 0 }

/-- Environment with only `SYMBOLS="not json"` set. -/
def envBadSymbols : Env := { symbols := some "not json" }

/-- Environment with `TRADING_MODE=live` and `SYMBOLS=["ETH/USDT"]` set. -/
def envLiveEth : Env :=
  { trading_mode := some "live", symbols := some "[\"ETH/USDT\"]" }

/-- The config the fallback produces from `envLiveEth`. -/
def cfgLiveEth : TradingConfig :=
  { mode := .LIVE, exchange := .BINANCE, api_key := none, api_secret := none,
    symbols := ["ETH/USDT"], update_interval := 60 }

/-- A fully specified remote document. -/
def docFull : RawDoc :=
  { mode := some "live", exchange := some "kraken", api_key := some "k",
    api_secret := some "s", symbols := some ["X/Y"], update_interval := some 5 }

/-- The config `docFull` maps to. -/
def cfgFull : TradingConfig :=
  { mode := .LIVE, exchange := .KRAKEN, api_key := some "k",
    api_secret := some "s", symbols := ["X/Y"], update_interval := 5 }

/-! ## Claims about `ConfigManager._load_config` -/

/-- **C1.** For every environment and every remote-store state,
`_load_config` (the spec's `resolve()`) raises an error if and only if both
the remote branch and the environment-variable fallback construction fail;
whenever the remote branch yields nothing, resolution is exactly the
fallback construction, so any remote failure alone is recovered and
resolution does not raise in that case. -/
theorem resolve_error_iff_both_fail (r : Remote) (e : Env) :
    ((∃ err, loadConfig r e = .error err) ↔
      (remoteBranch r = none ∧ ∃ err, envConstruct e = .error err)) ∧
    (remoteBranch r = none → loadConfig r e = envConstruct e) := by
  unfold loadConfig
  cases h : remoteBranch r with
  | some c => simp
  | none => simp

/-- Witness for C1: with a read exception and an empty environment,
resolution is the fallback construction. -/
theorem resolve_error_iff_both_fail_witness :
    loadConfig Remote.raises {} = envConstruct {} :=
  (resolve_error_iff_both_fail Remote.raises {}).2 rfl

/-- **C2 counterexample.** With an unreachable remote store and only
`UPDATE_INTERVAL="0"` in the environment, `_load_config` succeeds and the
resulting config has `update_interval = 0`, not `> 0`: the schema does not
enforce positivity. -/
theorem update_interval_zero_counterexample :
    loadConfig Remote.noDb envZeroInterval = .ok cfgZeroInterval ∧
    ¬ (0 < cfgZeroInterval.update_interval) := by
  constructor
  · rfl
  · decide

/-- **C2 (amended).** Every config `_load_config` returns has `mode` and
`exchange` among the enumerated values, but `update_interval` is not
constrained to be positive: `UPDATE_INTERVAL="0"` yields a config with
`update_interval = 0`. -/
theorem constructed_config_enums_valid :
    (∀ (r : Remote) (e : Env) (c : TradingConfig), loadConfig r e = .ok c →
      c.mode ∈ [TradingMode.PAPER, TradingMode.LIVE, TradingMode.BACKTEST] ∧
      c.exchange ∈ [ExchangeType.BINANCE, ExchangeType.COINBASE,
                    ExchangeType.KRAKEN, ExchangeType.BYBIT]) ∧
    loadConfig Remote.noDb envZeroInterval = .ok cfgZeroInterval ∧
    cfgZeroInterval.update_interval = 0 := by
  refine ⟨fun r e c _ => ⟨?_, ?_⟩, rfl, rfl⟩
  · cases c.mode <;> simp
  · cases c.exchange <;> simp

/-- Witness for C2 (amended): the enum membership at the concrete
resolution from `envZeroInterval`. -/
theorem constructed_config_enums_valid_witness :
    cfgZeroInterval.mode ∈
      [TradingMode.PAPER, TradingMode.LIVE, TradingMode.BACKTEST] ∧
    cfgZeroInterval.exchange ∈
      [ExchangeType.BINANCE, ExchangeType.COINBASE,
       ExchangeType.KRAKEN, ExchangeType.BYBIT] :=
  constructed_config_enums_valid.1 Remote.noDb envZeroInterval cfgZeroInterval rfl

/-- **C3.** When `SYMBOLS` holds a string `json.loads` rejects and the
remote branch yields nothing, `_load_config` raises (a decode error from
the fallback's argument evaluation) instead of returning a config. -/
theorem malformed_symbols_raises (r : Remote) (e : Env) (s : String)
    (hr : remoteBranch r = none) (hs : e.symbols = some s)
    (hbad : ∃ m, jsonLoadsStrList s = .error m) :
    ∃ m, loadConfig r e = .error (.jsonDecodeError m) := by
  obtain ⟨m, hm⟩ := hbad
  refine ⟨m, ?_⟩
  unfold loadConfig
  rw [hr]
  unfold envConstruct
  rw [hs]
  simp [hm]

/-- Witness for C3: `SYMBOLS="not json"` with no database handle. -/
theorem malformed_symbols_raises_witness :
    ∃ m, loadConfig Remote.noDb envBadSymbols = .error (.jsonDecodeError m) :=
  malformed_symbols_raises Remote.noDb envBadSymbols "not json" rfl rfl
    ⟨"Expecting value", rfl⟩

/-- **C4.** When the remote document exists and validates to a config,
`_load_config` returns exactly that config, and the result does not depend
on the environment. -/
theorem valid_doc_resolves_to_doc (d : RawDoc) (c : TradingConfig)
    (e e' : Env) (h : TradingConfig.ofDoc d = .ok c) :
    loadConfig (.doc d) e = .ok c ∧
    loadConfig (.doc d) e = loadConfig (.doc d) e' := by
  simp [loadConfig, remoteBranch, h, Except.toOption]

/-- Witness for C4: a fully specified document resolves to its mapped
config under two different environments. -/
theorem valid_doc_resolves_to_doc_witness :
    loadConfig (.doc docFull) {} = .ok cfgFull ∧
    loadConfig (.doc docFull) {} = loadConfig (.doc docFull) envLiveEth :=
  valid_doc_resolves_to_doc docFull cfgFull {} envLiveEth rfl

/-- **C5.** With an unproductive remote branch, `TRADING_MODE=live` and
`SYMBOLS=["ETH/USDT"]` set and the other variables unset, `_load_config`
returns mode `LIVE`, symbols `["ETH/USDT"]`, and every other field at its
fallback default (`BINANCE`, no keys, interval 60). -/
theorem env_live_eth_resolution (r : Remote) (hr : remoteBranch r = none) :
    loadConfig r envLiveEth = .ok cfgLiveEth := by
  unfold loadConfig
  rw [hr]
  rfl

/-- Witness for C5: the unreachable-store case (`self.db` is `None`). -/
theorem env_live_eth_resolution_witness :
    loadConfig Remote.noDb envLiveEth = .ok cfgLiveEth :=
  env_live_eth_resolution Remote.noDb rfl

/-! ## Claims about the data fetcher (modelled from the spec) -/

/-- **C6.** Starting from an empty cache with a successful exchange, a
`get(sym, kind, ttl=60)` at time `t1` fetches once (exactly one external
attempt) and stores the payload with timestamp `t1`; a second `get` on the
resulting cache within 60 seconds makes no external attempt and returns the
identical cached payload — one external call in total. -/
theorem cache_hit_within_ttl {α : Type} (oracle : Nat → FetchOutcome α)
    (p : α) (sym : String) (kind : DataKind) (t1 t2 : Nat)
    (hsucc : oracle 0 = .success p) (_hle : t1 ≤ t2) (hlt : t2 - t1 < 60) :
    DataFetcher.get oracle [] sym kind 60 t1 =
      (.ok p, [((sym, kind), ⟨p, t1⟩)], 1) ∧
    DataFetcher.get oracle [((sym, kind), ⟨p, t1⟩)] sym kind 60 t2 =
      (.ok p, [((sym, kind), ⟨p, t1⟩)], 0) := by
  constructor
  · simp [DataFetcher.get, cacheFind, cacheStore, fetchMarket, maxRetries,
          fetchLoop, hsucc]
  · simp [DataFetcher.get, cacheFind, hlt]

/-- Witness for C6: a ticker fetch at `t=100` followed by one at `t=130`. -/
theorem cache_hit_within_ttl_witness :
    DataFetcher.get (fun _ => FetchOutcome.success (42 : Nat)) []
        "BTC/USDT" .ticker 60 100 =
      (.ok 42, [(("BTC/USDT", .ticker), ⟨42, 100⟩)], 1) ∧
    DataFetcher.get (fun _ => FetchOutcome.success (42 : Nat))
        [(("BTC/USDT", .ticker), ⟨42, 100⟩)] "BTC/USDT" .ticker 60 130 =
      (.ok 42, [(("BTC/USDT", .ticker), ⟨42, 100⟩)], 0) :=
  cache_hit_within_ttl (fun _ => FetchOutcome.success 42) 42 "BTC/USDT"
    .ticker 100 130 rfl (by decide) (by decide)

/-- **C7.** On a cache miss: three transient failures followed by a success
yield the successful payload after exactly 4 external attempts; transient
failures throughout the retry budget surface a transient-fetch failure; a
permanent exchange error fails immediately after a single attempt. -/
theorem retry_policy :
    (∀ (α : Type) (oracle : Nat → FetchOutcome α) (p : α),
      oracle 0 = .transient → oracle 1 = .transient → oracle 2 = .transient →
      oracle 3 = .success p →
      ∀ (c : Cache α) (sym : String) (kind : DataKind) (ttl now : Nat),
        cacheFind c (sym, kind) = none →
        (DataFetcher.get oracle c sym kind ttl now).1 = .ok p ∧
        (DataFetcher.get oracle c sym kind ttl now).2.2 = 4) ∧
    (∀ (α : Type) (oracle : Nat → FetchOutcome α),
      (∀ i, i ≤ 3 → oracle i = .transient) →
      ∀ (c : Cache α) (sym : String) (kind : DataKind) (ttl now : Nat),
        cacheFind c (sym, kind) = none →
        (DataFetcher.get oracle c sym kind ttl now).1 =
          .error .transientFetchError) ∧
    (∀ (α : Type) (oracle : Nat → FetchOutcome α),
      oracle 0 = .permanent →
      ∀ (c : Cache α) (sym : String) (kind : DataKind) (ttl now : Nat),
        cacheFind c (sym, kind) = none →
        (DataFetcher.get oracle c sym kind ttl now).1 =
          .error .permanentFetchError ∧
        (DataFetcher.get oracle c sym kind ttl now).2.2 = 1) := by
  refine ⟨?_, ?_, ?_⟩
  · intro α oracle p h0 h1 h2 h3 c sym kind ttl now hc
    simp [DataFetcher.get, hc, fetchMarket, maxRetries, fetchLoop,
          h0, h1, h2, h3]
  · intro α oracle ht c sym kind ttl now hc
    have t0 := ht 0 (by norm_num)
    have t1 := ht 1 (by norm_num)
    have t2 := ht 2 (by norm_num)
    have t3 := ht 3 (by norm_num)
    simp [DataFetcher.get, hc, fetchMarket, maxRetries, fetchLoop,
          t0, t1, t2, t3]
  · intro α oracle h0 c sym kind ttl now hc
    simp [DataFetcher.get, hc, fetchMarket, maxRetries, fetchLoop, h0]

/-- An exchange that fails transiently three times, then succeeds. -/
def oracleThreeThenOk : Nat → FetchOutcome Nat :=
  fun i => if i < 3 then .transient else .success 42

/-- An exchange whose network always fails transiently. -/
def oracleAllTransient : Nat → FetchOutcome Nat := fun _ => .transient

/-- An exchange that permanently rejects the request. -/
def oracleRejects : Nat → FetchOutcome Nat := fun _ => .permanent

/-- Witness for C7: the three retry scenarios at concrete inputs. -/
theorem retry_policy_witness :
    ((DataFetcher.get oracleThreeThenOk [] "BTC/USDT" .ticker 60 100).1 =
        .ok 42 ∧
      (DataFetcher.get oracleThreeThenOk [] "BTC/USDT" .ticker 60 100).2.2 =
        4) ∧
    (DataFetcher.get oracleAllTransient [] "BTC/USDT" .ticker 60 100).1 =
      .error .transientFetchError ∧
    ((DataFetcher.get oracleRejects [] "BTC/USDT" .ticker 60 100).1 =
        .error .permanentFetchError ∧
      (DataFetcher.get oracleRejects [] "BTC/USDT" .ticker 60 100).2.2 =
        1) :=
  ⟨retry_policy.1 Nat oracleThreeThenOk 42 rfl rfl rfl rfl []
      "BTC/USDT" .ticker 60 100 rfl,
    retry_policy.2.1 Nat oracleAllTransient (fun _ _ => rfl) []
      "BTC/USDT" .ticker 60 100 rfl,
    retry_policy.2.2 Nat oracleRejects rfl []
      "BTC/USDT" .ticker 60 100 rfl⟩

/-! ## Claims about `save_config` and `FirebaseConfig.__new__` -/

/-- **C8.** For every database-handle state and every write outcome,
`save_config` returns normally (the `except Exception` clause swallows any
failure) and makes at most one write attempt — failures are never
propagated and never retried. -/
theorem save_config_never_raises (dbPresent : Bool) (w : WriteOutcome) :
    (save_config dbPresent w).raised = false ∧
    (save_config dbPresent w).attempts ≤ 1 := by
  cases dbPresent <;> cases w <;> simp [save_config, saveBody]

/-- **C9.** `FirebaseConfig.__new__` is idempotent singleton creation: a
second construction returns the very object the first one returned, and
leaves the stored `_instance` unchanged. -/
theorem firebase_new_singleton (inst : Option Nat) (f1 f2 : Nat) :
    (FirebaseConfig.new (FirebaseConfig.new inst f1).2 f2).1 =
      (FirebaseConfig.new inst f1).1 ∧
    (FirebaseConfig.new (FirebaseConfig.new inst f1).2 f2).2 =
      (FirebaseConfig.new inst f1).2 := by
  cases inst <;> exact ⟨rfl, rfl⟩

/-- The symbols field of any config a document validates to is the
document's list, or the schema default `["BTC/USDT", "ETH/USDT"]`. -/
theorem ofDoc_symbols (d : RawDoc) (c : TradingConfig)
    (h : TradingConfig.ofDoc d = .ok c) :
    c.symbols = d.symbols.getD ["BTC/USDT", "ETH/USDT"] := by
  unfold TradingConfig.ofDoc at h
  split at h
  · exact absurd h (by simp)
  · split at h
    · exact absurd h (by simp)
    · cases h
      rfl

/-- The symbols field of any config the environment fallback produces with
`SYMBOLS` unset is the fallback default `["BTC/USDT"]`. -/
theorem envConstruct_symbols (e : Env) (c : TradingConfig)
    (hs : e.symbols = none) (h : envConstruct e = .ok c) :
    c.symbols = ["BTC/USDT"] := by
  unfold envConstruct at h
  rw [hs] at h
  have hjson : jsonLoadsStrList ((none : Option String).getD "[\"BTC/USDT\"]") =
      .ok ["BTC/USDT"] := rfl
  rw [hjson] at h
  split at h
  · exact absurd h (by simp)
  · split at h
    · exact absurd h (by simp)
    · split at h
      · exact absurd h (by simp)
      · split at h
        · exact absurd h (by simp)
        · cases h
          simp_all

/-- **C10.** A remote document that omits `symbols` validates to the model
default `["BTC/USDT", "ETH/USDT"]`, while the environment fallback with
`SYMBOLS` unset defaults to `["BTC/USDT"]` — two different defaults. -/
theorem symbols_defaults_differ (d : RawDoc) (c : TradingConfig) (e : Env)
    (c' : TradingConfig) (hd : d.symbols = none)
    (hdoc : TradingConfig.ofDoc d = .ok c) (he : e.symbols = none)
    (henv : envConstruct e = .ok c') :
    c.symbols = ["BTC/USDT", "ETH/USDT"] ∧ c'.symbols = ["BTC/USDT"] ∧
    c.symbols ≠ c'.symbols := by
  have h1 := ofDoc_symbols d c hdoc
  rw [hd] at h1
  have h2 := envConstruct_symbols e c' he henv
  refine ⟨h1, h2, ?_⟩
  rw [h1, h2]
  simp

/-- Witness for C10: the all-defaults document against the empty
environment. -/
theorem symbols_defaults_differ_witness :
    ({} : TradingConfig).symbols = ["BTC/USDT", "ETH/USDT"] ∧
    cfgZeroInterval.symbols = ["BTC/USDT"] ∧
    ({} : TradingConfig).symbols ≠ cfgZeroInterval.symbols :=
  symbols_defaults_differ {} {} envZeroInterval cfgZeroInterval rfl rfl rfl rfl

end TradingFramework
